import Mathlib

/-!
# osgModeling: the lazy-update state machine of `Model` and the shape list of `Loft`

A shallow embedding of `Model.h` and `Loft.h`.

* A C++ object is a record of its data members; a member function is a function from the
  record (and the arguments) to the record after the call.
* A raw or reference-counted pointer is an `Option`: `none` is `NULL`.
* `int` members are `Int` (they are only assigned and compared), `unsigned int` positions
  and `std::vector` sizes are `Nat`.
* `Model` is a base class with virtual member functions. The data members of the derived
  class are the type parameter `D` of the record, and the two calls `Model::update` makes
  into code outside `Model.h` (the `AlgorithmCallback` functor and the virtual
  `updateImplementation`) are the two fields of `Strategies`: arbitrary transformers of the
  whole object, since both receive `this`.
-/

namespace osgModeling

/-! ## Collaborators declared in headers outside `Model.h` and `Loft.h` -/

/-- Modelled from the spec: `vEngine::Vec3` (its header is absent), a 3D point. The
coordinates are only stored and compared here, never computed with, and are kept exact. -/
structure Vec3 where
  x : Int
  y : Int
  z : Int
deriving DecidableEq, Repr

/-- Modelled from the spec: `Curve` (`Curve.h` is absent), an "ordered sequence of 3D points"
that "exposes point count and random-access point lookup". `addr` is the identity of the
object a `Curve*` points to: two curves with different `addr` and the same `path` are two
objects that are equal in value. -/
structure Curve where
  addr : Nat
  path : List Vec3
deriving DecidableEq, Repr

/-- Modelled from the spec: the output buffers of the base class `vEngine::Geometry` (its
header is absent): "accumulated vertex buffer, per-vertex normal buffer (optional),
per-vertex texcoord buffer (optional), and primitive topology (triangles)". -/
structure Geometry where
  vertices : List Vec3
  normals : Option (List Vec3)
  texCoords : Option (List (Int × Int))
  triangles : List (Nat × Nat × Nat)
deriving DecidableEq, Repr

/-- The base-class constructor `vEngine::Geometry()`: no buffers. -/
def Geometry.empty : Geometry :=
  { vertices := [], normals := none, texCoords := none, triangles := [] }

/-! ## `Model.h` -/

/-- The `enum GenerateParts`, first enumerator. -/
def CAP1_PART : Nat := 0x1
/-- The `enum GenerateParts`, second enumerator. -/
def BODY_PART : Nat := 0x2
/-- The `enum GenerateParts`, third enumerator. -/
def CAP2_PART : Nat := 0x4
/-- The `enum GenerateParts`: `ALL_PARTS=CAP1_PART|BODY_PART|CAP2_PART`. -/
def ALL_PARTS : Nat := CAP1_PART ||| BODY_PART ||| CAP2_PART

/-- The `enum GenerateCoords`, first enumerator. -/
def NORMAL_COORDS : Nat := 0x1
/-- The `enum GenerateCoords`, second enumerator. -/
def TEX_COORDS : Nat := 0x2
/-- The `enum GenerateCoords`: `ALL_COORDS=NORMAL_COORDS|TEX_COORDS`. -/
def ALL_COORDS : Nat := NORMAL_COORDS ||| TEX_COORDS

/-- The `enum AuxFunctions`, first enumerator. -/
def FLIP_NORMAL : Nat := 0x1
/-- The `enum AuxFunctions`, second enumerator. -/
def USE_WIREFRAME : Nat := 0x2

/-- The data members of `class Model : public vEngine::Geometry`, in declaration order,
after the base-class part `geometry`; `derived` holds the members a derived class adds.
The four `ref_ptr` members hold the identity of the object they point to. -/
structure Model (D : Type) where
  geometry : Geometry
  _updated : Bool
  _partsToGenerate : Int
  _coordsToGenerate : Int
  _funcs : Int
  _algorithmCallback : Option Nat
  _normalGenerator : Option Nat
  _texCoordGenerator : Option Nat
  _bspTree : Option Nat
  derived : D
deriving DecidableEq, Repr

/-- The default constructor `Model()`; `d` is what the derived constructor builds. -/
def Model.new {D : Type} (d : D) : Model D :=
  { geometry := Geometry.empty
    _updated := false
    _partsToGenerate := BODY_PART
    _coordsToGenerate := ALL_COORDS
    _funcs := 0
    _algorithmCallback := none
    _normalGenerator := none
    _texCoordGenerator := none
    _bspTree := none
    derived := d }

/-- The member function `Model::setGenerateParts( int gp )`. -/
def Model.setGenerateParts {D : Type} (m : Model D) (gp : Int) : Model D :=
  if m._partsToGenerate ≠ gp then
    { m with _updated := false, _partsToGenerate := gp }
  else m

/-- The member function `Model::getGenerateParts()`. -/
def Model.getGenerateParts {D : Type} (m : Model D) : Int := m._partsToGenerate

/-- The member function `Model::setGenerateCoords( int gc )`. -/
def Model.setGenerateCoords {D : Type} (m : Model D) (gc : Int) : Model D :=
  if m._coordsToGenerate ≠ gc then
    { m with _updated := false, _coordsToGenerate := gc }
  else m

/-- The member function `Model::getGenerateCoords()`. -/
def Model.getGenerateCoords {D : Type} (m : Model D) : Int := m._coordsToGenerate

/-- The member function `Model::setAuxFunctions( int funcs )`. -/
def Model.setAuxFunctions {D : Type} (m : Model D) (funcs : Int) : Model D :=
  { m with _funcs := funcs }

/-- The member function `Model::getAuxFunctions()`. -/
def Model.getAuxFunctions {D : Type} (m : Model D) : Int := m._funcs

/-- The member function `Model::setAlgorithmCallback( AlgorithmCallback* ac )`. -/
def Model.setAlgorithmCallback {D : Type} (m : Model D) (ac : Option Nat) : Model D :=
  { m with _algorithmCallback := ac }

/-- The member function `Model::getAlgorithmCallback()`. -/
def Model.getAlgorithmCallback {D : Type} (m : Model D) : Option Nat := m._algorithmCallback

/-- The member function `Model::setNormalGenerator( NormalVisitor* nv )`. -/
def Model.setNormalGenerator {D : Type} (m : Model D) (nv : Option Nat) : Model D :=
  { m with _normalGenerator := nv }

/-- The member function `Model::getNormalGenerator()`. -/
def Model.getNormalGenerator {D : Type} (m : Model D) : Option Nat := m._normalGenerator

/-- The member function `Model::setTexCoordGenerator( TexCoordVisitor* tcv )`. -/
def Model.setTexCoordGenerator {D : Type} (m : Model D) (tcv : Option Nat) : Model D :=
  { m with _texCoordGenerator := tcv }

/-- The member function `Model::getTexCoordGenerator()`. -/
def Model.getTexCoordGenerator {D : Type} (m : Model D) : Option Nat := m._texCoordGenerator

/-- The member function `Model::setBspTree( BspTree* bsp )`. -/
def Model.setBspTree {D : Type} (m : Model D) (bsp : Option Nat) : Model D :=
  { m with _bspTree := bsp }

/-- The member function `Model::getBspTree()`. -/
def Model.getBspTree {D : Type} (m : Model D) : Option Nat := m._bspTree

/-- The code `Model::update` calls that lives outside `Model.h`: `callback ac` is what
`(*_algorithmCallback)( this )` does to the object when `_algorithmCallback` points to the
functor `ac`, and `updateImplementation` is the body the virtual call dispatches to. -/
structure Strategies (D : Type) where
  callback : Nat → Model D → Model D
  updateImplementation : Model D → Model D

/-- One call of `Model::update` into generating code. -/
inductive GenCall where
  | algorithmCallback (ac : Nat)
  | updateImplementation
deriving DecidableEq, Repr

/-- The member function `Model::update( bool forceUpdate )`, with the list of the
generating calls it made, in order. -/
def Model.updateTraced {D : Type} (env : Strategies D) (m : Model D) (forceUpdate : Bool) :
    Model D × List GenCall :=
  if m._updated && !forceUpdate then
    (m, [])
  else
    let r : Model D × List GenCall :=
      match m._algorithmCallback with
      | some ac => (env.callback ac m, [GenCall.algorithmCallback ac])
      | none => (env.updateImplementation m, [GenCall.updateImplementation])
    ({ r.1 with _updated := true }, r.2)

/-- The member function `Model::update( bool forceUpdate )`: the object after the call. -/
def Model.update {D : Type} (env : Strategies D) (m : Model D) (forceUpdate : Bool) : Model D :=
  (Model.updateTraced env m forceUpdate).1

/-- The member function `Model::updateImplementation() {}`, the body in the base class. -/
def Model.updateImplementation {D : Type} (m : Model D) : Model D := m

/-! ## `Loft.h` -/

/-- The call `std::vector::resize( n )` on a vector of `ref_ptr<Curve>`: the first `n`
elements are kept and the vector is filled up to size `n` with null pointers. -/
def vectorResize (v : List (Option Curve)) (n : Nat) : List (Option Curve) :=
  v.take n ++ List.replicate (n - v.length) none

/-- The call `std::vector::insert( begin()+pos, x )`: `x` goes before the element at `pos`. -/
def vectorInsert (v : List (Option Curve)) (pos : Nat) (x : Option Curve) :
    List (Option Curve) :=
  v.take pos ++ x :: v.drop pos

/-- The call `std::vector::at( pos )`: the element, or `none` where `at` throws
`out_of_range`. -/
def vectorAt (v : List (Option Curve)) (pos : Nat) : Option (Option Curve) :=
  v[pos]?

/-- The data members `class Loft : public Model` adds; `Shapes` is
`std::vector< ref_ptr<Curve> >`. -/
structure LoftData where
  _profile : Option Curve
  _shapes : List (Option Curve)
deriving DecidableEq, Repr

/-- The objects of `class Loft`. -/
abbrev Loft : Type := Model LoftData

/-- Modelled from the spec: the constructor `Loft::Loft()` (declared in `Loft.h`, its body is
in the absent `Loft.cpp`): "a Loft instance is constructed with no path/shapes", on top of
`Model()`. -/
def Loft.new : Loft :=
  Model.new { _profile := none, _shapes := [] }

/-- The member function `Loft::setProfile( Curve* pts )`. -/
def Loft.setProfile (l : Loft) (pts : Option Curve) : Loft :=
  let l1 : Loft := { l with derived := { l.derived with _profile := pts } }
  if l1._updated then { l1 with _updated := false } else l1

/-- The member function `Loft::getProfile()`. -/
def Loft.getProfile (l : Loft) : Option Curve := l.derived._profile

/-- The member function `Loft::addShape( Curve* pts )`. -/
def Loft.addShape (l : Loft) (pts : Option Curve) : Loft :=
  if pts.isSome then
    { l with derived := { l.derived with _shapes := l.derived._shapes ++ [pts] } }
  else l

/-- The member function `Loft::insertShape( Curve* pts, unsigned int pos )`. -/
def Loft.insertShape (l : Loft) (pts : Option Curve) (pos : Nat) : Loft :=
  if pts.isNone then l
  else
    let resized : List (Option Curve) :=
      if l.derived._shapes.length ≤ pos then vectorResize l.derived._shapes pos
      else l.derived._shapes
    let l1 : Loft :=
      { l with derived := { l.derived with _shapes := vectorInsert resized pos pts } }
    if l1._updated then { l1 with _updated := false } else l1

/-- The member function `Loft::getShape( unsigned int pos )`: `some r` when the call returns
the pointer `r`, `none` when `at` throws. -/
def Loft.getShape (l : Loft) (pos : Nat) : Option (Option Curve) :=
  if pos ≥ l.derived._shapes.length then some none
  else vectorAt l.derived._shapes pos

/-- The member function `Loft::getAllShapes()`. -/
def Loft.getAllShapes (l : Loft) : List (Option Curve) := l.derived._shapes

/-- The number of samples of the current path: the point count of the curve `_profile`
points to, none for a null pointer. -/
def Loft.pathSamples (l : Loft) : Nat :=
  match l.derived._profile with
  | some c => c.path.length
  | none => 0

/-! ## Generation that can fail

`Loft::updateImplementation` is declared in `Loft.h` and defined in `Loft.cpp`, which is
absent. The spec gives it error kinds that `update()` surfaces to its caller. A call that
can raise an error is a function to an `Outcome`: the error raised, if any, and the object
as the call leaves it. -/

/-- Modelled from the spec: the error kinds of generation. -/
inductive GenError where
  | InvalidPath
  | NoProfile
  | KnotOutOfRange
  | DegenerateShape
deriving DecidableEq, Repr

/-- The end of a call that can raise an error. -/
structure Outcome (σ : Type) where
  error : Option GenError
  state : σ
deriving DecidableEq, Repr

/-- The points of the current path, none for a null `_profile`. -/
def Loft.pathPoints (l : Loft) : List Vec3 :=
  match l.derived._profile with
  | some c => c.path
  | none => []

/-- Modelled from the spec: `Loft::updateImplementation()` (`Loft.cpp` is absent). "Path with
fewer than 2 points is invalid — fails with `InvalidPath`"; the later stages (section
processor, transition builder, cap builder, attribute generators) are the parameter
`pipeline`, which builds the buffers aside or fails; "partial buffers from a failed pass must
not be exposed as the current mesh (swap-on-success semantics)". -/
def Loft.updateImplementation (pipeline : List Vec3 → Loft → Except GenError Geometry)
    (l : Loft) : Outcome Loft :=
  if (Loft.pathPoints l).length < 2 then
    { error := some GenError.InvalidPath, state := l }
  else
    match pipeline (Loft.pathPoints l) l with
    | Except.error e => { error := some e, state := l }
    | Except.ok g => { error := none, state := { l with geometry := g } }

/-- The code `Model::update` calls, when a call can end in an error. -/
structure FallibleStrategies (D : Type) where
  callback : Nat → Model D → Outcome (Model D)
  updateImplementation : Model D → Outcome (Model D)

/-- The member function `Model::update( bool forceUpdate )` when the generating call can
raise an error: the body has no handler, so the error leaves `update` before
`_updated = true` is reached. -/
def Model.updateFallible {D : Type} (env : FallibleStrategies D) (m : Model D)
    (forceUpdate : Bool) : Outcome (Model D) :=
  if m._updated && !forceUpdate then
    { error := none, state := m }
  else
    let r : Outcome (Model D) :=
      match m._algorithmCallback with
      | some ac => env.callback ac m
      | none => env.updateImplementation m
    match r.error with
    | some e => { error := some e, state := r.state }
    | none => { error := none, state := { r.state with _updated := true } }

/-- Strategies that never raise an error, as fallible ones. -/
def Strategies.toFallible {D : Type} (env : Strategies D) : FallibleStrategies D :=
  { callback := fun ac m => { error := none, state := env.callback ac m }
    updateImplementation := fun m => { error := none, state := env.updateImplementation m } }

/-! ## Sequences of calls -/

/-- One call of a member function that edits the path or the shape list. -/
inductive BindingCall where
  | setProfile (pts : Option Curve)
  | addShape (pts : Option Curve)
  | insertShape (pts : Option Curve) (pos : Nat)
deriving DecidableEq, Repr

/-- The object after one such call. -/
def Loft.bind (l : Loft) : BindingCall → Loft
  | BindingCall.setProfile pts => Loft.setProfile l pts
  | BindingCall.addShape pts => Loft.addShape l pts
  | BindingCall.insertShape pts pos => Loft.insertShape l pts pos

/-- The object after a sequence of such calls, first call first. -/
def Loft.bindAll (l : Loft) (calls : List BindingCall) : Loft :=
  calls.foldl Loft.bind l

/-- The size a shape list of size `n` has after one call, told without the object:
`setProfile` and a null shape keep it, `addShape` adds one, `insertShape` at `pos` makes it
`max n pos + 1`. The path has no part in it. -/
def BindingCall.sizeAfter (n : Nat) : BindingCall → Nat
  | BindingCall.setProfile _ => n
  | BindingCall.addShape pts => if pts.isSome then n + 1 else n
  | BindingCall.insertShape pts pos => if pts.isSome then max n pos + 1 else n

/-- One call of a member function of a Loft that edits geometry inputs, or of `update`. -/
inductive Call where
  | setProfile (pts : Option Curve)
  | addShape (pts : Option Curve)
  | insertShape (pts : Option Curve) (pos : Nat)
  | setGenerateParts (gp : Int)
  | setGenerateCoords (gc : Int)
  | setAuxFunctions (funcs : Int)
  | update (forceUpdate : Bool)
deriving DecidableEq, Repr

/-- The object after one such call. -/
def Loft.call (env : Strategies LoftData) (l : Loft) : Call → Loft
  | Call.setProfile pts => Loft.setProfile l pts
  | Call.addShape pts => Loft.addShape l pts
  | Call.insertShape pts pos => Loft.insertShape l pts pos
  | Call.setGenerateParts gp => Model.setGenerateParts l gp
  | Call.setGenerateCoords gc => Model.setGenerateCoords l gc
  | Call.setAuxFunctions funcs => Model.setAuxFunctions l funcs
  | Call.update forceUpdate => Model.update env l forceUpdate

/-- The object after a sequence of such calls, first call first. -/
def Loft.callAll (env : Strategies LoftData) (l : Loft) (calls : List Call) : Loft :=
  calls.foldl (Loft.call env) l

/-- The generating code leaves the spatial-index handle alone: neither the built-in pass
nor a callback calls `setBspTree` on the object it is given. -/
def Strategies.KeepsBspTree {D : Type} (env : Strategies D) : Prop :=
  (∀ m : Model D, (env.updateImplementation m)._bspTree = m._bspTree)
  ∧ (∀ (ac : Nat) (m : Model D), (env.callback ac m)._bspTree = m._bspTree)

/-- What a generation pass reads: the path points, the shapes and the two masks, and with
them the auxiliary flags and the two attribute generator handles. Neither the identity of
the path object, nor the dirty flag, nor the buffers of an earlier pass are among them. -/
structure GenInputs where
  path : List Vec3
  shapes : List (Option Curve)
  parts : Int
  coords : Int
  funcs : Int
  normalGenerator : Option Nat
  texCoordGenerator : Option Nat
deriving DecidableEq, Repr

/-- The inputs of generation in a Loft. -/
def Loft.genInputs (l : Loft) : GenInputs :=
  { path := Loft.pathPoints l
    shapes := l.derived._shapes
    parts := l._partsToGenerate
    coords := l._coordsToGenerate
    funcs := l._funcs
    normalGenerator := l._normalGenerator
    texCoordGenerator := l._texCoordGenerator }

/-- Generation is a deterministic function of its inputs: each generating call writes the
output buffers only, and what it writes is a function of `Loft.genInputs`. -/
def Strategies.Deterministic (env : Strategies LoftData) : Prop :=
  (∃ build : GenInputs → Geometry,
      ∀ l : Loft, env.updateImplementation l = { l with geometry := build (Loft.genInputs l) })
  ∧ (∀ ac : Nat, ∃ build : GenInputs → Geometry,
      ∀ l : Loft, env.callback ac l = { l with geometry := build (Loft.genInputs l) })

/-! ## Theorems -/

/-! ### `Model::update` -/

/-- The object `Model::update` leaves is the one its traced form leaves. -/
theorem Model.update_eq {D : Type} (env : Strategies D) (m : Model D) (forceUpdate : Bool) :
    Model.update env m forceUpdate = (Model.updateTraced env m forceUpdate).1 := rfl

/-- A clean object that is not forced is returned as it is, with no generating call. -/
theorem Model.updateTraced_clean {D : Type} (env : Strategies D) (m : Model D)
    (h : m._updated = true) : Model.updateTraced env m false = (m, []) := by
  simp [Model.updateTraced, h]

/-- Whatever `update` did, the object it leaves is clean. -/
theorem Model.update_updated {D : Type} (env : Strategies D) (m : Model D)
    (forceUpdate : Bool) : (Model.update env m forceUpdate)._updated = true := by
  unfold Model.update Model.updateTraced
  by_cases h : (m._updated && !forceUpdate) = true
  · rw [if_pos h]
    simp only [Bool.and_eq_true] at h
    exact h.1
  · rw [if_neg h]

/-- C1: when the state is DIRTY or `forceUpdate` is set, `update(forceUpdate)` makes
exactly one generating call: after `setAlgorithmCallback(ac)` with a functor `ac` it is the
call of that functor (whatever callback was set before), after `setAlgorithmCallback(NULL)`
it is `updateImplementation()`, never both; the object afterwards is the one the call left,
with `_updated = true` (CLEAN). -/
theorem update_runs_generation_once {D : Type} (env : Strategies D) (m : Model D)
    (forceUpdate : Bool) (h : m._updated = false ∨ forceUpdate = true) :
    (∀ ac : Nat,
        Model.updateTraced env (Model.setAlgorithmCallback m (some ac)) forceUpdate
          = ({ env.callback ac (Model.setAlgorithmCallback m (some ac)) with _updated := true },
             [GenCall.algorithmCallback ac]))
    ∧ Model.updateTraced env (Model.setAlgorithmCallback m none) forceUpdate
        = ({ env.updateImplementation (Model.setAlgorithmCallback m none) with
               _updated := true },
           [GenCall.updateImplementation])
    ∧ (∀ ac : Option Nat,
        (Model.update env (Model.setAlgorithmCallback m ac) forceUpdate)._updated = true
        ∧ ((Model.updateTraced env (Model.setAlgorithmCallback m ac) forceUpdate).2).length
            = 1) := by
  have hc : ¬ ((m._updated && !forceUpdate) = true) := by
    rcases h with h | h <;> simp [h]
  refine ⟨?_, ?_, ?_⟩
  · intro ac
    simp only [Model.updateTraced, Model.setAlgorithmCallback, if_neg hc]
  · simp only [Model.updateTraced, Model.setAlgorithmCallback, if_neg hc]
  · intro ac
    refine ⟨Model.update_updated env _ forceUpdate, ?_⟩
    cases ac <;> simp [Model.updateTraced, Model.setAlgorithmCallback, hc]

/-- C1, at a clean object with a callback set twice and a forced update: the functor set
last is the one called, once. -/
theorem update_runs_generation_once_witness :
    ((true : Bool) = false ∨ (true : Bool) = true)
    ∧ (Model.updateTraced
          { callback := fun ac m => Model.setAuxFunctions m ac
            updateImplementation := fun m => Model.setAuxFunctions m (-1) }
          (Model.setAlgorithmCallback
            (Model.setAlgorithmCallback
              { Model.new () with _updated := true } (some 5)) (some 7))
          true).2 = [GenCall.algorithmCallback 7] := by
  refine ⟨Or.inr rfl, ?_⟩
  have h := (update_runs_generation_once
    { callback := fun ac m => Model.setAuxFunctions m ac
      updateImplementation := fun m => Model.setAuxFunctions m (-1) }
    (Model.setAlgorithmCallback { Model.new () with _updated := true } (some 5))
    true (Or.inr rfl)).1 7
  exact congrArg Prod.snd h

/-- C2: on a CLEAN state `update(false)` makes no generating call and returns the object
unchanged, every data member included. -/
theorem update_clean_is_noop {D : Type} (env : Strategies D) (m : Model D)
    (h : m._updated = true) :
    Model.updateTraced env m false = (m, []) ∧ Model.update env m false = m := by
  have h1 := Model.updateTraced_clean env m h
  exact ⟨h1, by rw [Model.update_eq, h1]⟩

/-- C2, at a default-constructed base object marked clean. -/
theorem update_clean_is_noop_witness :
    ({ Model.new () with _updated := true } : Model Unit)._updated = true
    ∧ Model.update
        { callback := fun ac m => Model.setAuxFunctions m ac
          updateImplementation := fun m => Model.setAuxFunctions m (-1) }
        { Model.new () with _updated := true } false
      = { Model.new () with _updated := true } :=
  ⟨rfl, (update_clean_is_noop _ { Model.new () with _updated := true } rfl).2⟩

/-- C3: `update()` twice in a row leaves exactly the object `update()` once leaves; the
second call makes no generating call and the object is CLEAN. -/
theorem update_idempotent {D : Type} (env : Strategies D) (m : Model D) :
    Model.update env (Model.update env m false) false = Model.update env m false
    ∧ (Model.updateTraced env (Model.update env m false) false).2 = []
    ∧ (Model.update env (Model.update env m false) false)._updated = true := by
  have hclean := Model.update_updated env m false
  have h1 := Model.updateTraced_clean env (Model.update env m false) hclean
  refine ⟨?_, ?_, Model.update_updated env _ false⟩
  · rw [Model.update_eq env (Model.update env m false), h1]
  · rw [h1]

/-! ### Generation that fails -/

/-- With strategies that never raise an error, the fallible form of `update` is `update`. -/
theorem Model.updateFallible_toFallible {D : Type} (env : Strategies D) (m : Model D)
    (forceUpdate : Bool) :
    Model.updateFallible (Strategies.toFallible env) m forceUpdate
      = { error := none, state := Model.update env m forceUpdate } := by
  unfold Model.updateFallible Model.update Model.updateTraced Strategies.toFallible
  by_cases h : (m._updated && !forceUpdate) = true
  · simp only [if_pos h]
  · simp only [if_neg h]
    cases m._algorithmCallback <;> rfl

/-- A generation pass that fails leaves the object as it found it. -/
theorem Loft.updateImplementation_error_state
    (pipeline : List Vec3 → Loft → Except GenError Geometry) (l : Loft) (e : GenError)
    (h : (Loft.updateImplementation pipeline l).error = some e) :
    Loft.updateImplementation pipeline l = { error := some e, state := l } := by
  unfold Loft.updateImplementation at h ⊢
  by_cases hp : (Loft.pathPoints l).length < 2
  · simp only [if_pos hp] at h ⊢
    simp only [Option.some.injEq] at h
    rw [h]
  · simp only [if_neg hp] at h ⊢
    cases hq : pipeline (Loft.pathPoints l) l with
    | error e1 =>
      simp only [hq, Option.some.injEq] at h ⊢
      rw [h]
    | ok g => simp [hq] at h

/-- A path with fewer than 2 points fails generation with `InvalidPath`. -/
theorem Loft.updateImplementation_short_path
    (pipeline : List Vec3 → Loft → Except GenError Geometry) (l : Loft)
    (h : (Loft.pathPoints l).length < 2) :
    Loft.updateImplementation pipeline l
      = { error := some GenError.InvalidPath, state := l } := by
  simp [Loft.updateImplementation, h]

/-- An error in the built-in pass leaves `update` with the object the pass left. -/
theorem Model.updateFallible_error {D : Type} (env : FallibleStrategies D) (m : Model D)
    (forceUpdate : Bool) (e : GenError) (s : Model D)
    (hrun : m._updated = false ∨ forceUpdate = true) (hcb : m._algorithmCallback = none)
    (h : env.updateImplementation m = { error := some e, state := s }) :
    Model.updateFallible env m forceUpdate = { error := some e, state := s } := by
  have hc : ¬ ((m._updated && !forceUpdate) = true) := by
    rcases hrun with h1 | h1 <;> simp [h1]
  simp only [Model.updateFallible, if_neg hc, hcb, h]

/-- A failed `update` without a callback: generation did run, the built-in pass raised the
error, and `update` ends as the pass ended. -/
theorem Model.updateFallible_fail_builtin {D : Type} (env : FallibleStrategies D)
    (m : Model D) (forceUpdate : Bool) (e : GenError) (hcb : m._algorithmCallback = none)
    (h : (Model.updateFallible env m forceUpdate).error = some e) :
    (m._updated = false ∨ forceUpdate = true)
    ∧ (env.updateImplementation m).error = some e
    ∧ Model.updateFallible env m forceUpdate = env.updateImplementation m := by
  unfold Model.updateFallible at h ⊢
  by_cases hc : (m._updated && !forceUpdate) = true
  · simp only [if_pos hc] at h
    cases h
  · simp only [if_neg hc, hcb] at h ⊢
    have hrun : m._updated = false ∨ forceUpdate = true := by
      cases hu : m._updated <;> cases hf : forceUpdate <;> simp [hu, hf] at hc ⊢
    cases hr : (env.updateImplementation m).error with
    | none => simp [hr] at h
    | some e1 =>
      simp only [hr, Option.some.injEq] at h ⊢
      refine ⟨hrun, h, ?_⟩
      cases hq : env.updateImplementation m with
      | mk err st =>
        rw [hq] at hr
        simp only at hr
        rw [hr]

/-- A failed `update` with the callback `ac`: generation did run, the callback raised the
error, and `update` ends as the callback ended. -/
theorem Model.updateFallible_fail_callback {D : Type} (env : FallibleStrategies D)
    (m : Model D) (forceUpdate : Bool) (e : GenError) (ac : Nat)
    (hcb : m._algorithmCallback = some ac)
    (h : (Model.updateFallible env m forceUpdate).error = some e) :
    (m._updated = false ∨ forceUpdate = true)
    ∧ (env.callback ac m).error = some e
    ∧ Model.updateFallible env m forceUpdate = env.callback ac m := by
  unfold Model.updateFallible at h ⊢
  by_cases hc : (m._updated && !forceUpdate) = true
  · simp only [if_pos hc] at h
    cases h
  · simp only [if_neg hc, hcb] at h ⊢
    have hrun : m._updated = false ∨ forceUpdate = true := by
      cases hu : m._updated <;> cases hf : forceUpdate <;> simp [hu, hf] at hc ⊢
    cases hr : (env.callback ac m).error with
    | none => simp [hr] at h
    | some e1 =>
      simp only [hr, Option.some.injEq] at h ⊢
      refine ⟨hrun, h, ?_⟩
      cases hq : env.callback ac m with
      | mk err st =>
        rw [hq] at hr
        simp only at hr
        rw [hr]

/-- C4, as stated, fails at two inputs. First: a Loft with a path of 1 point is made CLEAN
by an `update()` through an algorithm callback, the callback is then removed with
`setAlgorithmCallback(NULL)`, and the forced `update(true)` fails with `InvalidPath`: the
state after the call is CLEAN, `_updated = true`. Second: on a fresh (DIRTY) Loft with an
algorithm callback that writes a vertex and then fails, `update()` fails and the buffers are
no longer the previous ones. -/
theorem update_failure_counterexample :
    (Model.updateFallible
        { callback := fun _ m => { error := none, state := m }
          updateImplementation :=
            Loft.updateImplementation (fun _ _ => Except.ok Geometry.empty) }
        (Model.setAlgorithmCallback
          (Model.updateFallible
            { callback := fun _ m => { error := none, state := m }
              updateImplementation :=
                Loft.updateImplementation (fun _ _ => Except.ok Geometry.empty) }
            (Model.setAlgorithmCallback
              (Loft.setProfile Loft.new
                (some { addr := 1, path := [{ x := 0, y := 0, z := 0 }] }))
              (some 1))
            false).state
          none)
        true).error = some GenError.InvalidPath
    ∧ ¬ ((Model.updateFallible
        { callback := fun _ m => { error := none, state := m }
          updateImplementation :=
            Loft.updateImplementation (fun _ _ => Except.ok Geometry.empty) }
        (Model.setAlgorithmCallback
          (Model.updateFallible
            { callback := fun _ m => { error := none, state := m }
              updateImplementation :=
                Loft.updateImplementation (fun _ _ => Except.ok Geometry.empty) }
            (Model.setAlgorithmCallback
              (Loft.setProfile Loft.new
                (some { addr := 1, path := [{ x := 0, y := 0, z := 0 }] }))
              (some 1))
            false).state
          none)
        true).state._updated = false)
    ∧ (Model.updateFallible
        { callback := fun _ m =>
            { error := some GenError.DegenerateShape
              state :=
                { m with
                  geometry := { Geometry.empty with vertices := [{ x := 1, y := 1, z := 1 }] } } }
          updateImplementation :=
            Loft.updateImplementation (fun _ _ => Except.ok Geometry.empty) }
        (Model.setAlgorithmCallback Loft.new (some 1))
        false).error = some GenError.DegenerateShape
    ∧ ¬ ((Model.updateFallible
        { callback := fun _ m =>
            { error := some GenError.DegenerateShape
              state :=
                { m with
                  geometry := { Geometry.empty with vertices := [{ x := 1, y := 1, z := 1 }] } } }
          updateImplementation :=
            Loft.updateImplementation (fun _ _ => Except.ok Geometry.empty) }
        (Model.setAlgorithmCallback Loft.new (some 1))
        false).state.geometry
          = (Model.setAlgorithmCallback Loft.new (some 1)).geometry) := by
  refine ⟨by decide, by decide, by decide, by decide⟩

/-- C4, amended: when generation fails during `update(forceUpdate)` with an error `e`, the
error is the one the generating call raised and `update` ends as that call ended, without
writing `_updated`. Without an algorithm callback the whole object is as before the call:
the output buffers are the previous ones and `_updated` keeps its value, so a DIRTY state is
still DIRTY (and a CLEAN state under a forced update is still CLEAN). With an algorithm
callback the object is the one the failing callback left. A path with fewer than 2 points
(1 point, or none) fails the built-in pass with `InvalidPath` whenever generation runs. -/
theorem update_failure_keeps_flag
    (pipeline : List Vec3 → Loft → Except GenError Geometry)
    (callback : Nat → Loft → Outcome Loft) (l : Loft) (forceUpdate : Bool) :
    (∀ e : GenError,
        (Model.updateFallible
            { callback := callback, updateImplementation := Loft.updateImplementation pipeline }
            l forceUpdate).error = some e →
        (l._updated = false ∨ forceUpdate = true)
        ∧ (l._algorithmCallback = none →
            Model.updateFallible
                { callback := callback
                  updateImplementation := Loft.updateImplementation pipeline }
                l forceUpdate
              = { error := some e, state := l })
        ∧ (l._algorithmCallback = none → l._updated = false →
            (Model.updateFallible
                { callback := callback
                  updateImplementation := Loft.updateImplementation pipeline }
                l forceUpdate).state._updated = false)
        ∧ (∀ ac : Nat, l._algorithmCallback = some ac →
            (callback ac l).error = some e
            ∧ Model.updateFallible
                { callback := callback
                  updateImplementation := Loft.updateImplementation pipeline }
                l forceUpdate
              = callback ac l))
    ∧ ((l._updated = false ∨ forceUpdate = true) → l._algorithmCallback = none →
        (Loft.pathPoints l).length < 2 →
        Model.updateFallible
            { callback := callback, updateImplementation := Loft.updateImplementation pipeline }
            l forceUpdate
          = { error := some GenError.InvalidPath, state := l }) := by
  constructor
  · intro e he
    have hb : l._algorithmCallback = none →
        (l._updated = false ∨ forceUpdate = true)
        ∧ Model.updateFallible
            { callback := callback, updateImplementation := Loft.updateImplementation pipeline }
            l forceUpdate
          = { error := some e, state := l } := by
      intro hcb
      obtain ⟨hrun, herr, heq⟩ := Model.updateFallible_fail_builtin
        { callback := callback, updateImplementation := Loft.updateImplementation pipeline }
        l forceUpdate e hcb he
      exact ⟨hrun, heq.trans (Loft.updateImplementation_error_state pipeline l e herr)⟩
    refine ⟨?_, fun hcb => (hb hcb).2, ?_, ?_⟩
    · cases hcb : l._algorithmCallback with
      | none => exact (hb hcb).1
      | some ac =>
        exact (Model.updateFallible_fail_callback
          { callback := callback, updateImplementation := Loft.updateImplementation pipeline }
          l forceUpdate e ac hcb he).1
    · intro hcb hdirty
      rw [(hb hcb).2]
      exact hdirty
    · intro ac hcb
      exact (Model.updateFallible_fail_callback
        { callback := callback, updateImplementation := Loft.updateImplementation pipeline }
        l forceUpdate e ac hcb he).2
  · intro hrun hcb hp
    exact Model.updateFallible_error
      { callback := callback, updateImplementation := Loft.updateImplementation pipeline }
      l forceUpdate GenError.InvalidPath l hrun hcb
      (Loft.updateImplementation_short_path pipeline l hp)

/-- C4, amended, at a fresh Loft given a path of 1 point: `update()` fails with
`InvalidPath`, the object is the one before the call and it is still DIRTY. -/
theorem update_failure_keeps_flag_witness :
    (Model.updateFallible
        { callback := fun _ m => { error := none, state := m }
          updateImplementation :=
            Loft.updateImplementation (fun _ _ => Except.ok Geometry.empty) }
        (Loft.setProfile Loft.new (some { addr := 1, path := [{ x := 0, y := 0, z := 0 }] }))
        false).error = some GenError.InvalidPath
    ∧ (Loft.setProfile Loft.new
        (some { addr := 1, path := [{ x := 0, y := 0, z := 0 }] }))._algorithmCallback = none
    ∧ (Loft.setProfile Loft.new
        (some { addr := 1, path := [{ x := 0, y := 0, z := 0 }] }))._updated = false
    ∧ Model.updateFallible
        { callback := fun _ m => { error := none, state := m }
          updateImplementation :=
            Loft.updateImplementation (fun _ _ => Except.ok Geometry.empty) }
        (Loft.setProfile Loft.new (some { addr := 1, path := [{ x := 0, y := 0, z := 0 }] }))
        false
      = { error := some GenError.InvalidPath
          state :=
            Loft.setProfile Loft.new
              (some { addr := 1, path := [{ x := 0, y := 0, z := 0 }] }) }
    ∧ (Model.updateFallible
        { callback := fun _ m => { error := none, state := m }
          updateImplementation :=
            Loft.updateImplementation (fun _ _ => Except.ok Geometry.empty) }
        (Loft.setProfile Loft.new (some { addr := 1, path := [{ x := 0, y := 0, z := 0 }] }))
        false).state._updated = false :=
  have h := (update_failure_keeps_flag (fun _ _ => Except.ok Geometry.empty)
    (fun _ m => { error := none, state := m })
    (Loft.setProfile Loft.new (some { addr := 1, path := [{ x := 0, y := 0, z := 0 }] }))
    false).1 GenError.InvalidPath (by decide)
  ⟨by decide, rfl, rfl, h.2.1 rfl, h.2.2.1 rfl rfl⟩

/-! ### The setters of `Loft` and the dirty flag -/

/-- The setter `setProfile` leaves the object DIRTY. -/
theorem Loft.setProfile_updated (l : Loft) (pts : Option Curve) :
    (Loft.setProfile l pts)._updated = false := by
  unfold Loft.setProfile
  cases h : l._updated <;> simp [h]

/-- The call `insertShape` of a non-null shape leaves the object DIRTY. -/
theorem Loft.insertShape_updated (l : Loft) (s : Curve) (pos : Nat) :
    (Loft.insertShape l (some s) pos)._updated = false := by
  unfold Loft.insertShape
  cases h : l._updated <;> simp [h]

/-- C5: `setProfile(p)` for any `p`, `insertShape(s,pos)` for a non-null `s` and any `pos`,
`setGenerateParts(gp)` for `gp` different from the current part mask and
`setGenerateCoords(gc)` for `gc` different from the current channel mask each leave
`_updated = false`, from a CLEAN and from a DIRTY state alike. -/
theorem setters_leave_dirty (l : Loft) (p : Option Curve) (s : Curve) (pos : Nat)
    (gp gc : Int) :
    (Loft.setProfile l p)._updated = false
    ∧ (Loft.insertShape l (some s) pos)._updated = false
    ∧ (gp ≠ Model.getGenerateParts l → (Model.setGenerateParts l gp)._updated = false)
    ∧ (gc ≠ Model.getGenerateCoords l → (Model.setGenerateCoords l gc)._updated = false) := by
  refine ⟨Loft.setProfile_updated l p, Loft.insertShape_updated l s pos, ?_, ?_⟩
  · intro h
    have h1 : l._partsToGenerate ≠ gp := fun e => h e.symm
    simp [Model.setGenerateParts, h1]
  · intro h
    have h1 : l._coordsToGenerate ≠ gc := fun e => h e.symm
    simp [Model.setGenerateCoords, h1]

/-- C5, at a CLEAN Loft: each of the four setters, the masks changed to `ALL_PARTS` and to
`NORMAL_COORDS`, leaves it DIRTY. -/
theorem setters_leave_dirty_witness :
    ((7 : Int) ≠ Model.getGenerateParts ({ Loft.new with _updated := true } : Loft))
    ∧ ((1 : Int) ≠ Model.getGenerateCoords ({ Loft.new with _updated := true } : Loft))
    ∧ (Loft.setProfile { Loft.new with _updated := true } none)._updated = false
    ∧ (Loft.insertShape { Loft.new with _updated := true }
          (some { addr := 2, path := [] }) 3)._updated = false
    ∧ (Model.setGenerateParts ({ Loft.new with _updated := true } : Loft) 7)._updated = false
    ∧ (Model.setGenerateCoords ({ Loft.new with _updated := true } : Loft) 1)._updated
        = false :=
  have h := setters_leave_dirty { Loft.new with _updated := true } none
    { addr := 2, path := [] } 3 7 1
  ⟨by decide, by decide, h.1, h.2.1, h.2.2.1 (by decide), h.2.2.2 (by decide)⟩

/-- C6: `addShape(s)` with a non-null `s` does not write `_updated`. On the CLEAN Loft a
first `update()` leaves, `addShape(s)` adds the shape and leaves `_updated = true`, and the
next `update()` without force makes no generating call and returns the object as it is. -/
theorem addShape_keeps_clean :
    (Model.update
        { callback := fun _ m => m, updateImplementation := fun m => m }
        Loft.new false)._updated = true
    ∧ Loft.getAllShapes
        (Loft.addShape
          (Model.update { callback := fun _ m => m, updateImplementation := fun m => m }
            Loft.new false)
          (some { addr := 2, path := [] }))
        = [some { addr := 2, path := [] }]
    ∧ (Loft.addShape
        (Model.update { callback := fun _ m => m, updateImplementation := fun m => m }
          Loft.new false)
        (some { addr := 2, path := [] }))._updated = true
    ∧ (Model.updateTraced
        { callback := fun _ m => m, updateImplementation := fun m => m }
        (Loft.addShape
          (Model.update { callback := fun _ m => m, updateImplementation := fun m => m }
            Loft.new false)
          (some { addr := 2, path := [] }))
        false).2 = [] := by
  refine ⟨rfl, rfl, rfl, rfl⟩

/-! ### The shape list -/

/-- Resizing to a size the vector does not exceed pads it with null pointers. -/
theorem vectorResize_of_length_le (v : List (Option Curve)) (n : Nat) (h : v.length ≤ n) :
    vectorResize v n = v ++ List.replicate (n - v.length) none := by
  unfold vectorResize
  rw [List.take_of_length_le h]

/-- Inserting at the end of a vector appends. -/
theorem vectorInsert_length (v : List (Option Curve)) (x : Option Curve) :
    vectorInsert v v.length x = v ++ [x] := by
  unfold vectorInsert
  rw [List.take_of_length_le (le_refl _), List.drop_eq_nil_of_le (le_refl _)]

/-- The shape list after `insertShape(s,pos)` at or beyond the end: the old list, null
pointers up to `pos`, then `s`. -/
theorem Loft.insertShape_beyond (l : Loft) (s : Curve) (pos : Nat)
    (h : (Loft.getAllShapes l).length ≤ pos) :
    Loft.getAllShapes (Loft.insertShape l (some s) pos)
      = Loft.getAllShapes l
          ++ List.replicate (pos - (Loft.getAllShapes l).length) none ++ [some s] := by
  unfold Loft.getAllShapes at h ⊢
  have hlen : (l.derived._shapes
      ++ List.replicate (pos - l.derived._shapes.length) (none : Option Curve)).length
      = pos := by
    rw [List.length_append, List.length_replicate]
    omega
  have hins := vectorInsert_length
    (l.derived._shapes ++ List.replicate (pos - l.derived._shapes.length) none) (some s)
  rw [hlen] at hins
  unfold Loft.insertShape
  cases hu : l._updated <;>
    simp [hu, h, vectorResize_of_length_le l.derived._shapes pos h, hins]

/-- C7: for a shape list of length `n`, a non-null shape `s` and `pos ≥ n`, after
`insertShape(s,pos)` the list `getAllShapes()` returns has size `pos+1`, holds `s` at
`pos`, its first `n` entries are the original ones in order, and every entry at an index
`i` with `n ≤ i < pos` is a null pointer. -/
theorem insertShape_pads (l : Loft) (s : Curve) (pos : Nat)
    (h : (Loft.getAllShapes l).length ≤ pos) :
    (Loft.getAllShapes (Loft.insertShape l (some s) pos)).length = pos + 1
    ∧ (Loft.getAllShapes (Loft.insertShape l (some s) pos))[pos]? = some (some s)
    ∧ (Loft.getAllShapes (Loft.insertShape l (some s) pos)).take (Loft.getAllShapes l).length
        = Loft.getAllShapes l
    ∧ (∀ i : Nat, (Loft.getAllShapes l).length ≤ i → i < pos →
        (Loft.getAllShapes (Loft.insertShape l (some s) pos))[i]? = some none) := by
  rw [Loft.insertShape_beyond l s pos h]
  have hlen : (Loft.getAllShapes l
      ++ List.replicate (pos - (Loft.getAllShapes l).length) (none : Option Curve)).length
      = pos := by
    rw [List.length_append, List.length_replicate]
    omega
  refine ⟨?_, ?_, ?_, ?_⟩
  · rw [List.length_append, hlen]
    rfl
  · rw [List.getElem?_append_right (le_of_eq hlen), hlen]
    simp
  · rw [List.append_assoc, List.take_left']
    rfl
  · intro i h1 h2
    rw [List.getElem?_append_left (by rw [hlen]; exact h2),
      List.getElem?_append_right h1, List.getElem?_replicate]
    have : i - (Loft.getAllShapes l).length < pos - (Loft.getAllShapes l).length := by omega
    simp [this]

/-- C7, on a list of one shape with `pos = 3`: four entries, two of them null padding. -/
theorem insertShape_pads_witness :
    (Loft.getAllShapes (Loft.addShape Loft.new (some { addr := 1, path := [] }))).length ≤ 3
    ∧ Loft.getAllShapes
        (Loft.insertShape (Loft.addShape Loft.new (some { addr := 1, path := [] }))
          (some { addr := 2, path := [] }) 3)
        = [some { addr := 1, path := [] }, none, none, some { addr := 2, path := [] }]
    ∧ (Loft.getAllShapes
        (Loft.insertShape (Loft.addShape Loft.new (some { addr := 1, path := [] }))
          (some { addr := 2, path := [] }) 3)).length = 3 + 1 :=
  ⟨by decide, by decide,
    (insertShape_pads (Loft.addShape Loft.new (some { addr := 1, path := [] }))
      { addr := 2, path := [] } 3 (by decide)).1⟩

/-- The call `insertShape` of a non-null shape at `pos` makes the size `max n pos + 1`. -/
theorem Loft.insertShape_length (l : Loft) (s : Curve) (pos : Nat) :
    (Loft.getAllShapes (Loft.insertShape l (some s) pos)).length
      = max (Loft.getAllShapes l).length pos + 1 := by
  by_cases h : (Loft.getAllShapes l).length ≤ pos
  · rw [Loft.insertShape_beyond l s pos h, List.length_append, List.length_append,
      List.length_replicate, max_eq_right h]
    simp only [List.length_singleton]
    omega
  · have h1 : pos < l.derived._shapes.length := by
      unfold Loft.getAllShapes at h
      omega
    have h2 : ¬ (l.derived._shapes.length ≤ pos) := by omega
    unfold Loft.getAllShapes Loft.insertShape vectorInsert
    cases hu : l._updated <;>
      simp [hu, h2, List.length_take, List.length_drop] <;> omega

/-- The size of the shape list after one call is `BindingCall.sizeAfter`. -/
theorem Loft.bind_length (l : Loft) (c : BindingCall) :
    (Loft.getAllShapes (Loft.bind l c)).length
      = BindingCall.sizeAfter (Loft.getAllShapes l).length c := by
  cases c with
  | setProfile pts =>
    unfold Loft.bind Loft.setProfile Loft.getAllShapes BindingCall.sizeAfter
    cases hu : l._updated <;> simp [hu]
  | addShape pts =>
    cases pts with
    | none => rfl
    | some s => simp [Loft.bind, Loft.addShape, Loft.getAllShapes, BindingCall.sizeAfter]
  | insertShape pts pos =>
    cases pts with
    | none => rfl
    | some s =>
      simp only [Loft.bind, BindingCall.sizeAfter, Option.isSome_some, if_true]
      exact Loft.insertShape_length l s pos

/-- The size of the shape list after a sequence of calls, from any object. -/
theorem Loft.bindAll_length (calls : List BindingCall) (l : Loft) :
    (Loft.getAllShapes (Loft.bindAll l calls)).length
      = calls.foldl BindingCall.sizeAfter (Loft.getAllShapes l).length := by
  induction calls generalizing l with
  | nil => rfl
  | cons c cs ih =>
    simp only [Loft.bindAll, List.foldl_cons] at ih ⊢
    rw [ih (Loft.bind l c), Loft.bind_length l c]

/-- C8, as stated, fails: after `setProfile` with a path of 2 points and three `addShape`
calls on a fresh Loft, the shape list has 3 entries and the path 2 samples. -/
theorem binding_bound_counterexample :
    ¬ (∀ calls : List BindingCall,
        (Loft.getAllShapes (Loft.bindAll Loft.new calls)).length
          ≤ Loft.pathSamples (Loft.bindAll Loft.new calls)) := by
  intro h
  have h1 := h
    [BindingCall.setProfile
        (some { addr := 1, path := [{ x := 0, y := 0, z := 0 }, { x := 0, y := 0, z := 1 }] }),
      BindingCall.addShape (some { addr := 2, path := [] }),
      BindingCall.addShape (some { addr := 2, path := [] }),
      BindingCall.addShape (some { addr := 2, path := [] })]
  revert h1
  decide

/-- C8, amended: in every state reachable from a fresh Loft by `setProfile`, `addShape` and
`insertShape` calls, the size of the shape list is the one the `addShape` and `insertShape`
calls alone give it (one more per non-null `addShape`, `max n pos + 1` after a non-null
`insertShape` at `pos`, unchanged by `setProfile` and by null shapes), whatever the number
of samples of the current path. -/
theorem binding_count_ignores_path (calls : List BindingCall) :
    (Loft.getAllShapes (Loft.bindAll Loft.new calls)).length
      = calls.foldl BindingCall.sizeAfter 0 :=
  Loft.bindAll_length calls Loft.new

/-! ### Setting an equal path again -/

/-- The inputs of generation after `setProfile` depend on the points of the new path only,
not on the object that holds them nor on the dirty flag or the buffers. -/
theorem Loft.genInputs_setProfile (l : Loft) (p : Curve) :
    Loft.genInputs (Loft.setProfile l (some p))
      = { Loft.genInputs l with path := p.path } := by
  unfold Loft.setProfile Loft.genInputs Loft.pathPoints
  cases hu : l._updated <;> simp [hu]

/-- A DIRTY object with a callback goes through the callback. -/
theorem Model.updateTraced_dirty_callback {D : Type} (env : Strategies D) (m : Model D)
    (forceUpdate : Bool) (ac : Nat) (h : m._updated = false)
    (hcb : m._algorithmCallback = some ac) :
    Model.updateTraced env m forceUpdate
      = ({ env.callback ac m with _updated := true }, [GenCall.algorithmCallback ac]) := by
  unfold Model.updateTraced
  simp only [h, hcb, Bool.false_and, Bool.false_eq_true, if_false]

/-- A DIRTY object without a callback goes through `updateImplementation`. -/
theorem Model.updateTraced_dirty_builtin {D : Type} (env : Strategies D) (m : Model D)
    (forceUpdate : Bool) (h : m._updated = false) (hcb : m._algorithmCallback = none) :
    Model.updateTraced env m forceUpdate
      = ({ env.updateImplementation m with _updated := true },
          [GenCall.updateImplementation]) := by
  unfold Model.updateTraced
  simp only [h, hcb, Bool.false_and, Bool.false_eq_true, if_false]

/-- The setter `setProfile` leaves the algorithm callback alone. -/
theorem Loft.setProfile_algorithmCallback (l : Loft) (pts : Option Curve) :
    (Loft.setProfile l pts)._algorithmCallback = l._algorithmCallback := by
  unfold Loft.setProfile
  cases hu : l._updated <;> simp [hu]

/-- With deterministic generation, `update()` on a DIRTY Loft makes one generating call,
writes buffers that are a function of the inputs, and changes no input. -/
theorem Model.update_deterministic (env : Strategies LoftData)
    (hdet : Strategies.Deterministic env) (l : Loft) :
    ∃ build : GenInputs → Geometry,
      (∀ l1 : Loft, l1._updated = false → l1._algorithmCallback = l._algorithmCallback →
        (Model.update env l1 false).geometry = build (Loft.genInputs l1)
        ∧ Loft.genInputs (Model.update env l1 false) = Loft.genInputs l1
        ∧ (Model.update env l1 false)._algorithmCallback = l1._algorithmCallback
        ∧ ((Model.updateTraced env l1 false).2).length = 1) := by
  cases hcb : l._algorithmCallback with
  | none =>
    obtain ⟨build, hb⟩ := hdet.1
    refine ⟨build, ?_⟩
    intro l1 h1 hc1
    rw [Model.update_eq, Model.updateTraced_dirty_builtin env l1 false h1 hc1, hb l1]
    exact ⟨rfl, rfl, rfl, rfl⟩
  | some ac =>
    obtain ⟨build, hb⟩ := hdet.2 ac
    refine ⟨build, ?_⟩
    intro l1 h1 hc1
    rw [Model.update_eq, Model.updateTraced_dirty_callback env l1 false ac h1 hc1, hb l1]
    exact ⟨rfl, rfl, rfl, rfl⟩

/-- C9: with generation a deterministic function of the path points, shapes and masks,
after `setProfile(p); update(); setProfile(q)` with `q` another path object of the same
points, the state is DIRTY, the following `update()` makes one generating call again, and
the buffers it leaves equal the buffers of the first pass. -/
theorem same_path_regenerates_same_output (env : Strategies LoftData)
    (hdet : Strategies.Deterministic env) (l : Loft) (p q : Curve) (hpq : q.path = p.path) :
    (Loft.setProfile (Model.update env (Loft.setProfile l (some p)) false) (some q))._updated
        = false
    ∧ ((Model.updateTraced env
          (Loft.setProfile (Model.update env (Loft.setProfile l (some p)) false) (some q))
          false).2).length = 1
    ∧ (Model.update env
          (Loft.setProfile (Model.update env (Loft.setProfile l (some p)) false) (some q))
          false).geometry
        = (Model.update env (Loft.setProfile l (some p)) false).geometry := by
  have hd0 := Loft.setProfile_updated l (some p)
  obtain ⟨build, hb⟩ := Model.update_deterministic env hdet (Loft.setProfile l (some p))
  obtain ⟨g1, i1, c1, -⟩ := hb (Loft.setProfile l (some p)) hd0 rfl
  have hd2 := Loft.setProfile_updated
    (Model.update env (Loft.setProfile l (some p)) false) (some q)
  have hc2 : (Loft.setProfile (Model.update env (Loft.setProfile l (some p)) false)
      (some q))._algorithmCallback = (Loft.setProfile l (some p))._algorithmCallback := by
    rw [Loft.setProfile_algorithmCallback, c1]
  obtain ⟨g2, -, -, t2⟩ := hb _ hd2 hc2
  refine ⟨hd2, t2, ?_⟩
  rw [g2, g1, Loft.genInputs_setProfile, i1, Loft.genInputs_setProfile, hpq]

/-- C9, from a fresh Loft, with a generation that writes the path points as vertices and two
path objects that hold the same two points. -/
theorem same_path_regenerates_same_output_witness :
    (Model.update
        { callback := fun _ m =>
            { m with geometry := { Geometry.empty with vertices := Loft.pathPoints m } }
          updateImplementation := fun m =>
            { m with geometry := { Geometry.empty with vertices := Loft.pathPoints m } } }
        (Loft.setProfile
          (Model.update
            { callback := fun _ m =>
                { m with geometry := { Geometry.empty with vertices := Loft.pathPoints m } }
              updateImplementation := fun m =>
                { m with geometry := { Geometry.empty with vertices := Loft.pathPoints m } } }
            (Loft.setProfile Loft.new
              (some { addr := 1,
                      path := [{ x := 0, y := 0, z := 0 }, { x := 0, y := 0, z := 1 }] }))
            false)
          (some { addr := 2,
                  path := [{ x := 0, y := 0, z := 0 }, { x := 0, y := 0, z := 1 }] }))
        false).geometry
      = (Model.update
          { callback := fun _ m =>
              { m with geometry := { Geometry.empty with vertices := Loft.pathPoints m } }
            updateImplementation := fun m =>
              { m with geometry := { Geometry.empty with vertices := Loft.pathPoints m } } }
          (Loft.setProfile Loft.new
            (some { addr := 1,
                    path := [{ x := 0, y := 0, z := 0 }, { x := 0, y := 0, z := 1 }] }))
          false).geometry :=
  (same_path_regenerates_same_output
    { callback := fun _ m =>
        { m with geometry := { Geometry.empty with vertices := Loft.pathPoints m } }
      updateImplementation := fun m =>
        { m with geometry := { Geometry.empty with vertices := Loft.pathPoints m } } }
    ⟨⟨fun i => { Geometry.empty with vertices := i.path }, fun _ => rfl⟩,
      fun _ => ⟨fun i => { Geometry.empty with vertices := i.path }, fun _ => rfl⟩⟩
    Loft.new
    { addr := 1, path := [{ x := 0, y := 0, z := 0 }, { x := 0, y := 0, z := 1 }] }
    { addr := 2, path := [{ x := 0, y := 0, z := 0 }, { x := 0, y := 0, z := 1 }] }
    rfl).2.2

/-! ### The spatial-index handle -/

/-- The setter `setProfile` leaves the spatial-index handle as it is. -/
theorem Loft.setProfile_bspTree (l : Loft) (pts : Option Curve) :
    (Loft.setProfile l pts)._bspTree = l._bspTree := by
  unfold Loft.setProfile
  cases hu : l._updated <;> simp [hu]

/-- The call `addShape` leaves the spatial-index handle as it is. -/
theorem Loft.addShape_bspTree (l : Loft) (pts : Option Curve) :
    (Loft.addShape l pts)._bspTree = l._bspTree := by
  unfold Loft.addShape
  cases pts <;> rfl

/-- The call `insertShape` leaves the spatial-index handle as it is. -/
theorem Loft.insertShape_bspTree (l : Loft) (pts : Option Curve) (pos : Nat) :
    (Loft.insertShape l pts pos)._bspTree = l._bspTree := by
  unfold Loft.insertShape
  cases pts with
  | none => rfl
  | some s => cases hu : l._updated <;> simp [hu]

/-- The setter `setGenerateParts` leaves the spatial-index handle as it is. -/
theorem Model.setGenerateParts_bspTree {D : Type} (m : Model D) (gp : Int) :
    (Model.setGenerateParts m gp)._bspTree = m._bspTree := by
  unfold Model.setGenerateParts
  by_cases h : m._partsToGenerate ≠ gp
  · rw [if_pos h]
  · rw [if_neg h]

/-- The setter `setGenerateCoords` leaves the spatial-index handle as it is. -/
theorem Model.setGenerateCoords_bspTree {D : Type} (m : Model D) (gc : Int) :
    (Model.setGenerateCoords m gc)._bspTree = m._bspTree := by
  unfold Model.setGenerateCoords
  by_cases h : m._coordsToGenerate ≠ gc
  · rw [if_pos h]
  · rw [if_neg h]

/-- The call `update` leaves the spatial-index handle as the generating code leaves it. -/
theorem Model.update_bspTree {D : Type} (env : Strategies D)
    (henv : Strategies.KeepsBspTree env) (m : Model D) (forceUpdate : Bool) :
    (Model.update env m forceUpdate)._bspTree = m._bspTree := by
  unfold Model.update Model.updateTraced
  by_cases h : (m._updated && !forceUpdate) = true
  · rw [if_pos h]
  · rw [if_neg h]
    cases hcb : m._algorithmCallback with
    | none => exact henv.1 m
    | some ac => exact henv.2 ac m

/-- One call leaves the spatial-index handle as it is. -/
theorem Loft.call_bspTree (env : Strategies LoftData) (henv : Strategies.KeepsBspTree env)
    (l : Loft) (c : Call) : (Loft.call env l c)._bspTree = l._bspTree := by
  cases c with
  | setProfile pts => exact Loft.setProfile_bspTree l pts
  | addShape pts => exact Loft.addShape_bspTree l pts
  | insertShape pts pos => exact Loft.insertShape_bspTree l pts pos
  | setGenerateParts gp => exact Model.setGenerateParts_bspTree l gp
  | setGenerateCoords gc => exact Model.setGenerateCoords_bspTree l gc
  | setAuxFunctions funcs => rfl
  | update forceUpdate => exact Model.update_bspTree env henv l forceUpdate

/-- C10: once `setBspTree(b)` has attached a handle, no sequence of `setProfile`,
`addShape`, `insertShape`, `setGenerateParts`, `setGenerateCoords`, `setAuxFunctions` and
`update` calls detaches or replaces it, the generating code called by `update` not calling
`setBspTree` itself: `getBspTree()` still returns `b`. -/
theorem bspTree_survives_geometry_changes (env : Strategies LoftData)
    (henv : Strategies.KeepsBspTree env) (l : Loft) (b : Option Nat) (calls : List Call) :
    Model.getBspTree (Loft.callAll env (Model.setBspTree l b) calls) = b := by
  have key : ∀ (cs : List Call) (l1 : Loft),
      (Loft.callAll env l1 cs)._bspTree = l1._bspTree := by
    intro cs
    induction cs with
    | nil => intro l1; rfl
    | cons c cs ih =>
      intro l1
      simp only [Loft.callAll, List.foldl_cons] at ih ⊢
      rw [ih (Loft.call env l1 c), Loft.call_bspTree env henv l1 c]
  unfold Model.getBspTree
  rw [key calls (Model.setBspTree l b)]
  rfl

/-- C10, on a fresh Loft with the handle 9 attached and one call of each kind, the two
`update` calls generating through a pass that writes the path points as vertices. -/
theorem bspTree_survives_geometry_changes_witness :
    Model.getBspTree
        (Loft.callAll
          { callback := fun _ m =>
              { m with geometry := { Geometry.empty with vertices := Loft.pathPoints m } }
            updateImplementation := fun m =>
              { m with geometry := { Geometry.empty with vertices := Loft.pathPoints m } } }
          (Model.setBspTree Loft.new (some 9))
          [Call.setProfile (some { addr := 1, path := [{ x := 0, y := 0, z := 0 }] }),
            Call.addShape (some { addr := 2, path := [] }),
            Call.update false,
            Call.insertShape (some { addr := 3, path := [] }) 4,
            Call.setGenerateParts 7,
            Call.setGenerateCoords 1,
            Call.setAuxFunctions 1,
            Call.update true])
      = some 9 :=
  bspTree_survives_geometry_changes
    { callback := fun _ m =>
        { m with geometry := { Geometry.empty with vertices := Loft.pathPoints m } }
      updateImplementation := fun m =>
        { m with geometry := { Geometry.empty with vertices := Loft.pathPoints m } } }
    ⟨fun _ => rfl, fun _ _ => rfl⟩ Loft.new (some 9) _

/-! ### Inserting inside the shape list -/

/-- The shape list after `insertShape(s,pos)` inside the list: the entries before `pos`,
then `s`, then the entries from `pos` on. -/
theorem Loft.insertShape_within (l : Loft) (s : Curve) (pos : Nat)
    (h : pos < (Loft.getAllShapes l).length) :
    Loft.getAllShapes (Loft.insertShape l (some s) pos)
      = (Loft.getAllShapes l).take pos ++ some s :: (Loft.getAllShapes l).drop pos := by
  unfold Loft.getAllShapes at h ⊢
  have h2 : ¬ (l.derived._shapes.length ≤ pos) := by omega
  unfold Loft.insertShape vectorInsert
  cases hu : l._updated <;> simp [hu, h2]

/-- C12: for a shape list of length `n`, a non-null shape `s` and `pos < n`,
`insertShape(s,pos)` inserts and does not replace: the list has `n+1` entries, the entry at
`pos` is `s`, the entries at indices below `pos` are unchanged, and the original entry at
every index `i ≥ pos` is now at index `i+1`. -/
theorem insertShape_shifts (l : Loft) (s : Curve) (pos : Nat)
    (h : pos < (Loft.getAllShapes l).length) :
    (Loft.getAllShapes (Loft.insertShape l (some s) pos)).length
        = (Loft.getAllShapes l).length + 1
    ∧ (Loft.getAllShapes (Loft.insertShape l (some s) pos))[pos]? = some (some s)
    ∧ (∀ i : Nat, i < pos →
        (Loft.getAllShapes (Loft.insertShape l (some s) pos))[i]? = (Loft.getAllShapes l)[i]?)
    ∧ (∀ i : Nat, pos ≤ i →
        (Loft.getAllShapes (Loft.insertShape l (some s) pos))[i + 1]?
          = (Loft.getAllShapes l)[i]?) := by
  rw [Loft.insertShape_within l s pos h]
  have hlen : ((Loft.getAllShapes l).take pos).length = pos := by
    rw [List.length_take]
    omega
  refine ⟨?_, ?_, ?_, ?_⟩
  · rw [List.length_append, List.length_cons, List.length_drop, hlen]
    omega
  · rw [List.getElem?_append_right (le_of_eq hlen), hlen]
    simp
  · intro i hi
    rw [List.getElem?_append_left (by rw [hlen]; exact hi), List.getElem?_take]
    simp [hi]
  · intro i hi
    rw [List.getElem?_append_right (by rw [hlen]; omega), hlen]
    have e : i + 1 - pos = (i - pos) + 1 := by omega
    rw [e, List.getElem?_cons_succ, List.getElem?_drop]
    congr 1
    omega

/-- C12, on the list of two shapes 1 and 2 with the shape 3 inserted at position 0: three
entries, the two old ones moved up by one. -/
theorem insertShape_shifts_witness :
    0 < (Loft.getAllShapes
          (Loft.addShape (Loft.addShape Loft.new (some { addr := 1, path := [] }))
            (some { addr := 2, path := [] }))).length
    ∧ Loft.getAllShapes
        (Loft.insertShape
          (Loft.addShape (Loft.addShape Loft.new (some { addr := 1, path := [] }))
            (some { addr := 2, path := [] }))
          (some { addr := 3, path := [] }) 0)
        = [some { addr := 3, path := [] }, some { addr := 1, path := [] },
            some { addr := 2, path := [] }]
    ∧ (Loft.getAllShapes
        (Loft.insertShape
          (Loft.addShape (Loft.addShape Loft.new (some { addr := 1, path := [] }))
            (some { addr := 2, path := [] }))
          (some { addr := 3, path := [] }) 0)).length
        = (Loft.getAllShapes
            (Loft.addShape (Loft.addShape Loft.new (some { addr := 1, path := [] }))
              (some { addr := 2, path := [] }))).length + 1 :=
  ⟨by decide, by decide,
    (insertShape_shifts
      (Loft.addShape (Loft.addShape Loft.new (some { addr := 1, path := [] }))
        (some { addr := 2, path := [] }))
      { addr := 3, path := [] } 0 (by decide)).1⟩

/-! ### Reading the shape list -/

/-- After `insertShape(s,pos)` of a non-null shape the entry at `pos` is `s`, wherever `pos`
lies. -/
theorem Loft.insertShape_getElem (l : Loft) (s : Curve) (pos : Nat) :
    (Loft.getAllShapes (Loft.insertShape l (some s) pos))[pos]? = some (some s) := by
  by_cases h : (Loft.getAllShapes l).length ≤ pos
  · rw [Loft.insertShape_beyond l s pos h]
    have hlen : (Loft.getAllShapes l
        ++ List.replicate (pos - (Loft.getAllShapes l).length) (none : Option Curve)).length
        = pos := by
      rw [List.length_append, List.length_replicate]
      omega
    rw [List.getElem?_append_right (le_of_eq hlen), hlen]
    simp
  · have h1 : pos < (Loft.getAllShapes l).length := by omega
    rw [Loft.insertShape_within l s pos h1]
    have hlen : ((Loft.getAllShapes l).take pos).length = pos := by
      rw [List.length_take]
      omega
    rw [List.getElem?_append_right (le_of_eq hlen), hlen]
    simp

/-- The call `getShape(pos)` inside the list returns the entry at `pos`. -/
theorem Loft.getShape_within (l : Loft) (pos : Nat) (h : pos < (Loft.getAllShapes l).length) :
    Loft.getShape l pos = some ((Loft.getAllShapes l).get ⟨pos, h⟩) := by
  unfold Loft.getAllShapes at h
  have h2 : ¬ (pos ≥ l.derived._shapes.length) := by omega
  unfold Loft.getShape vectorAt Loft.getAllShapes
  rw [if_neg h2, List.getElem?_eq_getElem h]
  rfl

/-- The call `getShape(pos)` at or beyond the end of the list returns `NULL`. -/
theorem Loft.getShape_beyond (l : Loft) (pos : Nat) (h : (Loft.getAllShapes l).length ≤ pos) :
    Loft.getShape l pos = some none := by
  unfold Loft.getAllShapes at h
  unfold Loft.getShape
  rw [if_pos h]

/-- C13: `getShape(pos)` always returns: `NULL` when `pos ≥ size`, the entry stored at `pos`
otherwise, so the bounds-checked `at(pos)` never throws; and after `insertShape(s,pos)` with
a non-null `s`, `getShape(pos)` returns `s`. -/
theorem getShape_total (l : Loft) (pos : Nat) :
    ((Loft.getAllShapes l).length ≤ pos → Loft.getShape l pos = some none)
    ∧ (∀ h : pos < (Loft.getAllShapes l).length,
        Loft.getShape l pos = some ((Loft.getAllShapes l).get ⟨pos, h⟩))
    ∧ (∃ r : Option Curve, Loft.getShape l pos = some r)
    ∧ (∀ s : Curve, Loft.getShape (Loft.insertShape l (some s) pos) pos = some (some s)) := by
  refine ⟨Loft.getShape_beyond l pos, Loft.getShape_within l pos, ?_, ?_⟩
  · by_cases h : (Loft.getAllShapes l).length ≤ pos
    · exact ⟨none, Loft.getShape_beyond l pos h⟩
    · have h1 : pos < (Loft.getAllShapes l).length := by omega
      exact ⟨_, Loft.getShape_within l pos h1⟩
  · intro s
    have he := Loft.insertShape_getElem l s pos
    have hlt : pos < (Loft.getAllShapes (Loft.insertShape l (some s) pos)).length := by
      rw [Loft.insertShape_length]
      omega
    rw [Loft.getShape_within _ pos hlt]
    rw [List.getElem?_eq_getElem hlt] at he
    exact he

/-- C13, on the list `[1, NULL, NULL, 2]`: `getShape(0)` is the shape 1, `getShape(1)` the
null padding, `getShape(4)` and beyond `NULL`. -/
theorem getShape_total_witness :
    (Loft.getAllShapes
        (Loft.insertShape (Loft.addShape Loft.new (some { addr := 1, path := [] }))
          (some { addr := 2, path := [] }) 3)).length ≤ 4
    ∧ Loft.getShape
        (Loft.insertShape (Loft.addShape Loft.new (some { addr := 1, path := [] }))
          (some { addr := 2, path := [] }) 3) 0 = some (some { addr := 1, path := [] })
    ∧ Loft.getShape
        (Loft.insertShape (Loft.addShape Loft.new (some { addr := 1, path := [] }))
          (some { addr := 2, path := [] }) 3) 1 = some none
    ∧ Loft.getShape
        (Loft.insertShape (Loft.addShape Loft.new (some { addr := 1, path := [] }))
          (some { addr := 2, path := [] }) 3) 4 = some none :=
  ⟨by decide, by decide, by decide,
    (getShape_total
      (Loft.insertShape (Loft.addShape Loft.new (some { addr := 1, path := [] }))
        (some { addr := 2, path := [] }) 3) 4).1 (by decide)⟩

/-- C14: `addShape(NULL)` and `insertShape(NULL,pos)` return the object as it was: the shape
list is neither padded nor grown and `_updated` keeps its value. -/
theorem null_shape_rejected (l : Loft) (pos : Nat) :
    Loft.addShape l none = l ∧ Loft.insertShape l none pos = l :=
  ⟨rfl, rfl⟩

/-! ### The masks, the auxiliary flags and the handles -/

/-- C15: `setGenerateParts(gp)` with `gp` the current part mask and `setGenerateCoords(gc)`
with `gc` the current channel mask return the object as it was (a CLEAN model stays CLEAN);
for every `gp` and `gc`, `getGenerateParts()` returns `gp` after `setGenerateParts(gp)` and
`getGenerateCoords()` returns `gc` after `setGenerateCoords(gc)`, and each setter leaves the
other mask as it was. -/
theorem mask_setters {D : Type} (m : Model D) (gp gc : Int) :
    Model.setGenerateParts m (Model.getGenerateParts m) = m
    ∧ Model.setGenerateCoords m (Model.getGenerateCoords m) = m
    ∧ Model.getGenerateParts (Model.setGenerateParts m gp) = gp
    ∧ Model.getGenerateCoords (Model.setGenerateCoords m gc) = gc
    ∧ Model.getGenerateCoords (Model.setGenerateParts m gp) = Model.getGenerateCoords m
    ∧ Model.getGenerateParts (Model.setGenerateCoords m gc) = Model.getGenerateParts m := by
  refine ⟨?_, ?_, ?_, ?_, ?_, ?_⟩
  · simp [Model.setGenerateParts, Model.getGenerateParts]
  · simp [Model.setGenerateCoords, Model.getGenerateCoords]
  · unfold Model.setGenerateParts Model.getGenerateParts
    by_cases h : m._partsToGenerate ≠ gp
    · rw [if_pos h]
    · rw [if_neg h]
      exact not_not.mp h
  · unfold Model.setGenerateCoords Model.getGenerateCoords
    by_cases h : m._coordsToGenerate ≠ gc
    · rw [if_pos h]
    · rw [if_neg h]
      exact not_not.mp h
  · unfold Model.setGenerateParts Model.getGenerateCoords
    by_cases h : m._partsToGenerate ≠ gp
    · rw [if_pos h]
    · rw [if_neg h]
  · unfold Model.setGenerateCoords Model.getGenerateParts
    by_cases h : m._coordsToGenerate ≠ gc
    · rw [if_pos h]
    · rw [if_neg h]

/-- C16: `setAuxFunctions`, `setAlgorithmCallback`, `setNormalGenerator`,
`setTexCoordGenerator` and `setBspTree` each write their own member and nothing else, so
`_updated` and both masks are as before; on a CLEAN model the `update()` without force that
follows any of them makes no generating call and returns the object as it is. -/
theorem aux_setters_keep_dirty_flag {D : Type} (env : Strategies D) (m : Model D)
    (funcs : Int) (ac nv tcv bsp : Option Nat) :
    (Model.setAuxFunctions m funcs = { m with _funcs := funcs }
      ∧ Model.setAlgorithmCallback m ac = { m with _algorithmCallback := ac }
      ∧ Model.setNormalGenerator m nv = { m with _normalGenerator := nv }
      ∧ Model.setTexCoordGenerator m tcv = { m with _texCoordGenerator := tcv }
      ∧ Model.setBspTree m bsp = { m with _bspTree := bsp })
    ∧ ((Model.setAuxFunctions m funcs)._updated = m._updated
      ∧ (Model.setAlgorithmCallback m ac)._updated = m._updated
      ∧ (Model.setNormalGenerator m nv)._updated = m._updated
      ∧ (Model.setTexCoordGenerator m tcv)._updated = m._updated
      ∧ (Model.setBspTree m bsp)._updated = m._updated)
    ∧ (Model.getGenerateParts (Model.setAuxFunctions m funcs) = Model.getGenerateParts m
      ∧ Model.getGenerateParts (Model.setAlgorithmCallback m ac) = Model.getGenerateParts m
      ∧ Model.getGenerateParts (Model.setNormalGenerator m nv) = Model.getGenerateParts m
      ∧ Model.getGenerateParts (Model.setTexCoordGenerator m tcv) = Model.getGenerateParts m
      ∧ Model.getGenerateParts (Model.setBspTree m bsp) = Model.getGenerateParts m)
    ∧ (Model.getGenerateCoords (Model.setAuxFunctions m funcs) = Model.getGenerateCoords m
      ∧ Model.getGenerateCoords (Model.setAlgorithmCallback m ac) = Model.getGenerateCoords m
      ∧ Model.getGenerateCoords (Model.setNormalGenerator m nv) = Model.getGenerateCoords m
      ∧ Model.getGenerateCoords (Model.setTexCoordGenerator m tcv)
          = Model.getGenerateCoords m
      ∧ Model.getGenerateCoords (Model.setBspTree m bsp) = Model.getGenerateCoords m)
    ∧ (m._updated = true →
        Model.updateTraced env (Model.setAuxFunctions m funcs) false
            = (Model.setAuxFunctions m funcs, [])
        ∧ Model.updateTraced env (Model.setAlgorithmCallback m ac) false
            = (Model.setAlgorithmCallback m ac, [])
        ∧ Model.updateTraced env (Model.setNormalGenerator m nv) false
            = (Model.setNormalGenerator m nv, [])
        ∧ Model.updateTraced env (Model.setTexCoordGenerator m tcv) false
            = (Model.setTexCoordGenerator m tcv, [])
        ∧ Model.updateTraced env (Model.setBspTree m bsp) false
            = (Model.setBspTree m bsp, [])) := by
  refine ⟨⟨rfl, rfl, rfl, rfl, rfl⟩, ⟨rfl, rfl, rfl, rfl, rfl⟩, ⟨rfl, rfl, rfl, rfl, rfl⟩,
    ⟨rfl, rfl, rfl, rfl, rfl⟩, ?_⟩
  intro h
  exact ⟨Model.updateTraced_clean env _ h, Model.updateTraced_clean env _ h,
    Model.updateTraced_clean env _ h, Model.updateTraced_clean env _ h,
    Model.updateTraced_clean env _ h⟩

/-- C16, on a CLEAN Loft with `FLIP_NORMAL` switched on: the flag is stored and the
`update()` that follows makes no generating call. -/
theorem aux_setters_keep_dirty_flag_witness :
    (Model.update { callback := fun _ m => m, updateImplementation := fun m => m }
        Loft.new false)._updated = true
    ∧ Model.getAuxFunctions
        (Model.setAuxFunctions
          (Model.update { callback := fun _ m => m, updateImplementation := fun m => m }
            Loft.new false)
          FLIP_NORMAL) = 1
    ∧ (Model.updateTraced
        { callback := fun _ m => m, updateImplementation := fun m => m }
        (Model.setAuxFunctions
          (Model.update { callback := fun _ m => m, updateImplementation := fun m => m }
            Loft.new false)
          FLIP_NORMAL)
        false).2 = [] :=
  ⟨rfl, rfl,
    congrArg Prod.snd
      ((aux_setters_keep_dirty_flag
        { callback := fun _ m => m, updateImplementation := fun m => m }
        (Model.update { callback := fun _ m => m, updateImplementation := fun m => m }
          Loft.new false)
        FLIP_NORMAL none none none none).2.2.2.2 rfl).1⟩

/-! ### The default constructor -/

/-- C17: a default-constructed `Model` is DIRTY, its part mask is `BODY_PART` with neither
cap bit, its channel mask is `ALL_COORDS`, its auxiliary flags are 0 and its four handles
are null; the first `update(forceUpdate)` on it, forced or not, makes one generating call,
to `updateImplementation()`; and `setGenerateParts(ALL_PARTS)`, the call with the default
argument, changes the mask, to `ALL_PARTS`. -/
theorem default_model {D : Type} (env : Strategies D) (d : D) (forceUpdate : Bool) :
    ((Model.new d)._updated = false
      ∧ Model.getGenerateParts (Model.new d) = BODY_PART
      ∧ BODY_PART &&& CAP1_PART = 0
      ∧ BODY_PART &&& CAP2_PART = 0
      ∧ Model.getGenerateCoords (Model.new d) = ALL_COORDS
      ∧ Model.getAuxFunctions (Model.new d) = 0
      ∧ Model.getAlgorithmCallback (Model.new d) = none
      ∧ Model.getNormalGenerator (Model.new d) = none
      ∧ Model.getTexCoordGenerator (Model.new d) = none
      ∧ Model.getBspTree (Model.new d) = none)
    ∧ Model.updateTraced env (Model.new d) forceUpdate
        = ({ env.updateImplementation (Model.new d) with _updated := true },
            [GenCall.updateImplementation])
    ∧ (Model.getGenerateParts (Model.setGenerateParts (Model.new d) ALL_PARTS) = ALL_PARTS
      ∧ Model.getGenerateParts (Model.setGenerateParts (Model.new d) ALL_PARTS)
          ≠ Model.getGenerateParts (Model.new d)
      ∧ Model.setGenerateParts (Model.new d) ALL_PARTS
          = { Model.new d with _partsToGenerate := ALL_PARTS }) := by
  refine ⟨⟨rfl, rfl, by decide, by decide, rfl, rfl, rfl, rfl, rfl, rfl⟩, ?_, ?_⟩
  · exact Model.updateTraced_dirty_builtin env (Model.new d) forceUpdate rfl rfl
  · have hne : (Model.new d)._partsToGenerate ≠ ((ALL_PARTS : Nat) : Int) := by
      show ((BODY_PART : Nat) : Int) ≠ ((ALL_PARTS : Nat) : Int)
      decide
    refine ⟨?_, ?_, ?_⟩
    · simp only [Model.setGenerateParts, Model.getGenerateParts, if_pos hne]
    · simp only [Model.setGenerateParts, Model.getGenerateParts, if_pos hne]
      exact fun e => hne e.symm
    · simp only [Model.setGenerateParts, if_pos hne]
      rfl

end osgModeling
